import Mathlib

/-!
Verification model of the checkout and payment-mandate settlement engine.

The checkout store is translated from `EnhancedBusinessAgent` in
`backend/ollama_agent.py`: in-memory checkout and order dictionaries,
the line-item mutation tools, customer update, payment start and
checkout completion, together with `_recalculate_checkout`.

The merchant side is translated from `MerchantPaymentAgent` in
`merchant-backend/merchant_payment_agent.py`: mandate signature
validation, OTP generation/verification and `process_payment`.

Python floats are modelled as rationals; `round(x, 2)` is modelled as
round-half-to-even at two decimal places.  Nondeterministic inputs of
the source (clock readings, uuid-derived identifiers, the settlement
random draw, the randomly drawn OTP digits) are passed in explicitly
as parameters, so every function is a pure function of its inputs.
-/

/-- Round-half-to-even to the nearest integer, the tie-breaking rule of
Python's built-in `round`. -/
def roundHalfEven (x : ℚ) : ℤ :=
  let f := ⌊x⌋
  let r := x - f
  if r < 1/2 then f
  else if 1/2 < r then f + 1
  else if f % 2 = 0 then f else f + 1

/-- Python's `round(x, 2)`. -/
def round2 (x : ℚ) : ℚ := (roundHalfEven (100 * x) : ℚ) / 100

/-- One entry of a checkout's `line_items` list.  The Python dict holds
`product_id`, `quantity` and (after the first recalculation) `line_total`. -/
structure LineItem where
  product_id : String
  quantity : Int
  line_total : ℚ
deriving DecidableEq, Repr

/-- The `customer` sub-dict of a checkout: `email` and `shipping_address`
keys, each possibly absent. -/
structure Customer where
  email : Option String
  shipping_address : Option (List (String × String))
deriving DecidableEq, Repr

/-- The `totals` dict written by `_recalculate_checkout`. -/
structure Totals where
  subtotal : ℚ
  tax : ℚ
  shipping : ℚ
  total : ℚ
  currency : String
deriving DecidableEq, Repr

/-- A checkout session, as created by `add_to_checkout`.  `totals` is
`none` for the initial empty dict, `some` once recalculated. -/
structure Checkout where
  id : String
  session_id : String
  line_items : List LineItem
  currency : String
  status : String
  customer : Customer
  totals : Option Totals
deriving DecidableEq, Repr

/-- An order record as built by `complete_checkout`. -/
structure Order where
  id : String
  checkout_id : String
  items : List LineItem
  customer : Customer
  totals : Option Totals
  payment_token : String
  status : String
  created_at : ℚ
deriving DecidableEq, Repr

/-- Lookup in a Python-dict-like association list. -/
def lookupKey {α : Type} (m : List (String × α)) (k : String) : Option α :=
  (m.find? (fun p => p.1 == k)).map (·.2)

/-- Python-dict assignment `m[k] = v`: replaces the value in place (dict
keys are unique, so the first binding is the binding) when the key is
present, otherwise appends the new binding, preserving insertion order. -/
def setKey {α : Type} : List (String × α) → String → α → List (String × α)
  | [], k, v => [(k, v)]
  | p :: rest, k, v =>
    if p.1 == k then (k, v) :: rest else p :: setKey rest k v

/-- The two in-memory stores of `EnhancedBusinessAgent`: `self.checkouts`
and `self.orders`. -/
structure AgentState where
  checkouts : List (String × Checkout)
  orders : List (String × Order)
deriving DecidableEq, Repr

/-- Agent state at construction time: both dictionaries empty. -/
def initialState : AgentState := { checkouts := [], orders := [] }

/-- Placeholder unit price used by `_recalculate_checkout`
(`item_price = 5.00`). -/
def ITEM_PRICE : ℚ := 5

/-- The line-item pass of `_recalculate_checkout`: every `line_total` is
rewritten as `item_price * quantity` with the placeholder unit price. -/
def recalcItems (items : List LineItem) : List LineItem :=
  items.map (fun it => { it with line_total := ITEM_PRICE * (it.quantity : ℚ) })

/-- The totals computed by `_recalculate_checkout` from the refreshed line
items: 10% tax, a flat 5.00 shipping fee on positive subtotals, and
2-decimal rounding of every stored figure. -/
def computeTotals (items : List LineItem) : Totals :=
  let subtotal : ℚ := (items.map (·.line_total)).sum
  let tax : ℚ := subtotal * (1/10)
  let shipping : ℚ := if 0 < subtotal then 5 else 0
  let total : ℚ := subtotal + tax + shipping
  { subtotal := round2 subtotal,
    tax := round2 tax,
    shipping := round2 shipping,
    total := round2 total,
    currency := "USD" }

/-- Translation of `_recalculate_checkout`: refresh the line totals, then
rebuild the `totals` dict from them. -/
def recalculate_checkout (c : Checkout) : Checkout :=
  let items := recalcItems c.line_items
  { c with line_items := items, totals := some (computeTotals items) }

/-- Bump the quantity of the first line item matching `pid` by `q`
(the `item["quantity"] += quantity` branch of `add_to_checkout`). -/
def bumpFirst : List LineItem → String → Int → List LineItem
  | [], _, _ => []
  | it :: rest, pid, q =>
    if it.product_id == pid then
      { it with quantity := it.quantity + q } :: rest
    else it :: bumpFirst rest pid q

/-- Replace the quantity of the first line item matching `pid` by `q`
(the `item["quantity"] = quantity` branch of `update_checkout`). -/
def setFirst : List LineItem → String → Int → List LineItem
  | [], _, _ => []
  | it :: rest, pid, q =>
    if it.product_id == pid then
      { it with quantity := q } :: rest
    else it :: setFirst rest pid q

/-- Translation of the `add_to_checkout` tool.  Creates the checkout when
absent, accumulates the quantity when the product is already in the cart,
otherwise appends a new line item; always recalculates.  Returns the
checkout snapshot and the new agent state.  The source performs no
validation of `quantity`. -/
def add_to_checkout (s : AgentState) (checkout_id product_id : String)
    (quantity : Int) (session_id : String) :
    Except String Checkout × AgentState :=
  let c0 := match lookupKey s.checkouts checkout_id with
    | some c => c
    | none =>
      { id := checkout_id, session_id := session_id, line_items := [],
        currency := "USD", status := "incomplete",
        customer := { email := none, shipping_address := none },
        totals := none }
  let c1 :=
    if c0.line_items.any (fun it => it.product_id == product_id) then
      { c0 with line_items := bumpFirst c0.line_items product_id quantity }
    else
      { c0 with line_items := c0.line_items ++
          [{ product_id := product_id, quantity := quantity, line_total := 0 }] }
  let c2 := recalculate_checkout c1
  (Except.ok c2, { s with checkouts := setKey s.checkouts checkout_id c2 })

/-- Translation of the `remove_from_checkout` tool: filters out every line
item with the given product id, then recalculates. -/
def remove_from_checkout (s : AgentState) (checkout_id product_id : String) :
    Except String Checkout × AgentState :=
  match lookupKey s.checkouts checkout_id with
  | none => (Except.error "Checkout not found", s)
  | some c =>
    let c1 := { c with
                line_items :=
                  c.line_items.filter (fun it => it.product_id != product_id) }
    let c2 := recalculate_checkout c1
    (Except.ok c2, { s with checkouts := setKey s.checkouts checkout_id c2 })

/-- Translation of the `update_checkout` tool: quantity `0` delegates to
`remove_from_checkout`; otherwise the first matching line item's quantity
is replaced and totals recalculated; a missing product id is an error and
the state is untouched. -/
def update_checkout (s : AgentState) (checkout_id product_id : String)
    (quantity : Int) : Except String Checkout × AgentState :=
  if quantity = 0 then remove_from_checkout s checkout_id product_id
  else
    match lookupKey s.checkouts checkout_id with
    | none => (Except.error "Checkout not found", s)
    | some c =>
      if c.line_items.any (fun it => it.product_id == product_id) then
        let c1 := { c with
                    line_items := setFirst c.line_items product_id quantity }
        let c2 := recalculate_checkout c1
        (Except.ok c2,
          { s with checkouts := setKey s.checkouts checkout_id c2 })
      else (Except.error "Product not found in checkout", s)

/-- Translation of the `update_customer_details` tool.  The email key is
always written; the shipping address only when the argument is truthy
(present and non-empty). -/
def update_customer_details (s : AgentState) (checkout_id email : String)
    (shipping_address : Option (List (String × String))) :
    Except String Checkout × AgentState :=
  match lookupKey s.checkouts checkout_id with
  | none => (Except.error "Checkout not found", s)
  | some c =>
    let addr := match shipping_address with
      | some a => if a.isEmpty then c.customer.shipping_address else some a
      | none => c.customer.shipping_address
    let c1 := { c with
                customer := { email := some email,
                              shipping_address := addr } }
    (Except.ok c1, { s with checkouts := setKey s.checkouts checkout_id c1 })

/-- Translation of the `start_payment` tool: rejects a missing checkout, an
empty cart and a missing customer email, otherwise sets the status to
`ready_for_payment` unconditionally. -/
def start_payment (s : AgentState) (checkout_id : String) :
    Except String Checkout × AgentState :=
  match lookupKey s.checkouts checkout_id with
  | none => (Except.error "Checkout not found", s)
  | some c =>
    if c.line_items.isEmpty then (Except.error "Checkout is empty", s)
    else if c.customer.email.isNone then
      (Except.error "Customer email required", s)
    else
      let c1 := { c with status := "ready_for_payment" }
      (Except.ok c1, { s with checkouts := setKey s.checkouts checkout_id c1 })

/-- Order id generated by `complete_checkout` from the integer clock
reading (`f"ORD-{int(time.time())}"`). -/
def orderIdOf (ts : Int) : String := "ORD-" ++ toString ts

/-- The order record built by `complete_checkout`. -/
def mkOrder (checkout_id : String) (c : Checkout) (payment_token : String)
    (ts : Int) (created_at : ℚ) : Order :=
  { id := orderIdOf ts, checkout_id := checkout_id, items := c.line_items,
    customer := c.customer, totals := c.totals,
    payment_token := payment_token, status := "completed",
    created_at := created_at }

/-- Translation of the `complete_checkout` tool: requires status
`ready_for_payment`, then stores a new order under the generated id and
marks the checkout completed.  `ts` models the `int(time.time())` reading
and `created_at` the second clock reading stored on the order. -/
def complete_checkout (s : AgentState) (checkout_id payment_token : String)
    (ts : Int) (created_at : ℚ) : Except String Order × AgentState :=
  match lookupKey s.checkouts checkout_id with
  | none => (Except.error "Checkout not found", s)
  | some c =>
    if c.status != "ready_for_payment" then
      (Except.error "Checkout not ready for completion", s)
    else
      let o := mkOrder checkout_id c payment_token ts created_at
      let c1 := { c with status := "completed" }
      (Except.ok o,
        { checkouts := setKey s.checkouts checkout_id c1,
          orders := setKey s.orders (orderIdOf ts) o })

/-- Status of a stored checkout, if present. -/
def statusOf (s : AgentState) (checkout_id : String) : Option String :=
  (lookupKey s.checkouts checkout_id).map (·.status)

/-- Quantity on the first line item of a checkout matching `pid`. -/
def itemQuantity (c : Checkout) (pid : String) : Option Int :=
  (c.line_items.find? (fun it => it.product_id == pid)).map (·.quantity)

/-- Quantity of a product in a stored checkout, if both exist. -/
def quantityOf (s : AgentState) (checkout_id pid : String) : Option Int :=
  (lookupKey s.checkouts checkout_id).bind (fun c => itemQuantity c pid)

/-- True when an `Except` result is a success. -/
def resultIsOk {α : Type} : Except String α → Bool
  | Except.ok _ => true
  | Except.error _ => false

/-- One line-item mutation on a fixed checkout id. -/
inductive MutOp where
  | add (pid : String) (q : Int) (sid : String)
  | remove (pid : String)
  | update (pid : String) (q : Int)
deriving DecidableEq, Repr

/-- Apply one mutation to the agent state, discarding the returned
snapshot. -/
def applyMut (s : AgentState) (cid : String) : MutOp → AgentState
  | MutOp.add pid q sid => (add_to_checkout s cid pid q sid).2
  | MutOp.remove pid => (remove_from_checkout s cid pid).2
  | MutOp.update pid q => (update_checkout s cid pid q).2

/-- Apply a sequence of mutations, oldest first. -/
def applyMuts (s : AgentState) (cid : String) (ops : List MutOp) : AgentState :=
  ops.foldl (fun st op => applyMut st cid op) s

/-- A money amount: the `PaymentCurrencyAmount` of the AP2 types. -/
structure PaymentCurrencyAmount where
  value : ℚ
  currency : String
deriving DecidableEq, Repr

/-- The `payment_response` part of the mandate contents. -/
structure PaymentResponse where
  method_name : String
  payer_email : String
deriving DecidableEq, Repr

/-- The `payment_details_total` part of the mandate contents. -/
structure PaymentDetailsTotal where
  amount : PaymentCurrencyAmount
deriving DecidableEq, Repr

/-- The signed contents of a payment mandate. -/
structure PaymentMandateContents where
  payment_mandate_id : String
  payment_details_total : PaymentDetailsTotal
  payment_response : PaymentResponse
deriving DecidableEq, Repr

/-- A payment mandate: contents plus the opaque authorization blob. -/
structure PaymentMandate where
  payment_mandate_contents : PaymentMandateContents
  user_authorization : String
deriving DecidableEq, Repr

/-- Receipt outcome: `PaymentReceiptSuccess`, `PaymentReceiptFailure` or
`PaymentReceiptError` of the AP2 types. -/
inductive PaymentStatus where
  | success (merchant_confirmation_id psp_confirmation_id
      network_confirmation_id : String)
  | failure (failure_message : String)
  | error (error_message : String)
deriving DecidableEq, Repr

/-- A payment receipt as constructed by `process_payment`. -/
structure PaymentReceipt where
  payment_mandate_id : String
  timestamp : String
  payment_id : String
  amount : PaymentCurrencyAmount
  payment_status : PaymentStatus
  payment_method_details : Option (String × String)
deriving DecidableEq, Repr

/-- Nondeterministic inputs read by one `process_payment` call: the clock,
the uuid-derived identifiers of each branch, and the settlement draw
(`random.random() < 0.95`). -/
structure PaymentEnv where
  timestamp : String
  err_payment_id : String
  payment_id : String
  merchant_confirmation : String
  psp_confirmation : String
  network_confirmation : String
  settle_success : Bool
deriving DecidableEq, Repr

/-- Translation of `validate_mandate_signature`: rejects an empty
authorization (Python falsiness) and any authorization shorter than 10
characters; accepts otherwise. -/
def validate_mandate_signature (mandate : PaymentMandate) : Bool :=
  if mandate.user_authorization = "" then false
  else if mandate.user_authorization.length < 10 then false
  else true

/-- The merchant agent's only mutable state: `self.pending_otps`, a dict
from mandate id to outstanding OTP code. -/
abbrev OtpStore : Type := List (String × String)

/-- Translation of `generate_otp`: stores the freshly drawn code (passed
in as `otp`, six random digits in the source) under the mandate id,
superseding any previous code, and returns it. -/
def generate_otp (pending : OtpStore) (mandate_id otp : String) :
    String × OtpStore :=
  (otp, setKey pending mandate_id otp)

/-- Translation of `verify_otp`: no outstanding code (including Python's
falsy empty string) fails; a mismatching code fails; a match succeeds and
deletes the stored code. -/
def verify_otp (pending : OtpStore) (mandate_id otp_code : String) :
    Bool × OtpStore :=
  match lookupKey pending mandate_id with
  | none => (false, pending)
  | some expected =>
    if expected = "" then (false, pending)
    else if otp_code = expected then
      (true, pending.filter (fun p => p.1 != mandate_id))
    else (false, pending)

/-- Translation of `process_payment`.  The method never reads or writes
`self.pending_otps`, so the store is passed through unchanged; the
signature check short-circuits to an `Error` receipt, otherwise the
settlement draw decides between the `Success` and `Failure` receipts. -/
def process_payment (pending : OtpStore) (mandate : PaymentMandate)
    (env : PaymentEnv) : PaymentReceipt × OtpStore :=
  let mandate_id := mandate.payment_mandate_contents.payment_mandate_id
  if !validate_mandate_signature mandate then
    ({ payment_mandate_id := mandate_id,
       timestamp := env.timestamp,
       payment_id := env.err_payment_id,
       amount := mandate.payment_mandate_contents.payment_details_total.amount,
       payment_status := PaymentStatus.error "Invalid mandate signature",
       payment_method_details := none }, pending)
  else if env.settle_success then
    ({ payment_mandate_id := mandate_id,
       timestamp := env.timestamp,
       payment_id := env.payment_id,
       amount := mandate.payment_mandate_contents.payment_details_total.amount,
       payment_status := PaymentStatus.success env.merchant_confirmation
         env.psp_confirmation env.network_confirmation,
       payment_method_details := some
         (mandate.payment_mandate_contents.payment_response.method_name,
          mandate.payment_mandate_contents.payment_response.payer_email) },
     pending)
  else
    ({ payment_mandate_id := mandate_id,
       timestamp := env.timestamp,
       payment_id := env.payment_id,
       amount := mandate.payment_mandate_contents.payment_details_total.amount,
       payment_status :=
         PaymentStatus.failure "Payment declined by issuing bank",
       payment_method_details := none }, pending)

/-- The totals relation of the pricing engine on the stored figures:
the grand total is the exact sum of its parts, the subtotal is the exact
sum of the line totals, tax is 10% of the subtotal, shipping is the flat
fee exactly when the subtotal is positive, and every line total is the
unit price times the quantity. -/
def totalsInvariant (items : List LineItem) (t : Totals) : Prop :=
  t.total = t.subtotal + t.tax + t.shipping ∧
  t.subtotal = (items.map (·.line_total)).sum ∧
  t.tax = t.subtotal * (1/10) ∧
  t.shipping = (if 0 < t.subtotal then (5 : ℚ) else 0) ∧
  ∀ it ∈ items, it.line_total = ITEM_PRICE * (it.quantity : ℚ)

/-- A checkout's stored totals, when present, satisfy the pricing
invariant against its stored line items. -/
def totalsOk (c : Checkout) : Prop :=
  ∀ t, c.totals = some t → totalsInvariant c.line_items t

/-- The checkout built by `add_to_checkout` when the checkout id is new. -/
def freshCheckout (cid sid pid : String) (q : Int) : Checkout :=
  { id := cid, session_id := sid,
    line_items := [{ product_id := pid, quantity := q, line_total := 0 }],
    currency := "USD", status := "incomplete",
    customer := { email := none, shipping_address := none },
    totals := none }

/-- The customer record written by `update_customer_details`. -/
def mergedCustomer (c : Checkout) (email : String)
    (addr : Option (List (String × String))) : Customer :=
  { email := some email,
    shipping_address := match addr with
      | some a => if a.isEmpty then c.customer.shipping_address else some a
      | none => c.customer.shipping_address }

/-- Every checkout stored in the map satisfies the pricing invariant. -/
def mapTotalsOk (m : List (String × Checkout)) : Prop :=
  ∀ cid c, lookupKey m cid = some c → totalsOk c

/-- Every stored checkout of an agent state satisfies the pricing
invariant. -/
def stateTotalsOk (s : AgentState) : Prop := mapTotalsOk s.checkouts

/-- Example checkout in `ready_for_payment` state, for concrete runs. -/
def exReady : Checkout :=
  { id := "c1", session_id := "s1", line_items := [],
    currency := "USD", status := "ready_for_payment",
    customer := { email := none, shipping_address := none }, totals := none }

/-- Example store holding `exReady`. -/
def exReadyState : AgentState :=
  { checkouts := [("c1", exReady)], orders := [] }

/-- Example incomplete checkout with one line item and an email. -/
def exCart : Checkout :=
  { id := "c2", session_id := "s2",
    line_items := [{ product_id := "p1", quantity := 2, line_total := 10 }],
    currency := "USD", status := "incomplete",
    customer := { email := some "u@example.com", shipping_address := none },
    totals := none }

/-- Example store holding `exCart`. -/
def exCartState : AgentState :=
  { checkouts := [("c2", exCart)], orders := [] }

/-- Example mandate whose authorization blob is the empty string. -/
def exMandateNoAuth : PaymentMandate :=
  { payment_mandate_contents :=
      { payment_mandate_id := "m1",
        payment_details_total :=
          { amount := { value := 50, currency := "USD" } },
        payment_response :=
          { method_name := "CARD", payer_email := "u@example.com" } },
    user_authorization := "" }

/-- Example nondeterministic inputs for one `process_payment` call. -/
def exEnv : PaymentEnv :=
  { timestamp := "2026-01-01T00:00:00", err_payment_id := "ERR-1",
    payment_id := "PAY-1", merchant_confirmation := "MCH-1",
    psp_confirmation := "PSP-1", network_confirmation := "NET-1",
    settle_success := true }

/-- Concrete run, step 1: add one unit of `p1` to a fresh checkout. -/
def exRun1 : AgentState := (add_to_checkout initialState "c1" "p1" 1 "s1").2

/-- Concrete run, step 2: record the customer email. -/
def exRun2 : AgentState :=
  (update_customer_details exRun1 "c1" "u@example.com" none).2

/-- Concrete run, step 3: begin payment. -/
def exRun3 : AgentState := (start_payment exRun2 "c1").2

/-- Concrete run, step 4: complete the checkout. -/
def exRun4 : AgentState := (complete_checkout exRun3 "c1" "tok" 0 0).2

/-! ### Association-list lemmas -/

lemma lookupKey_setKey_self {α : Type} (m : List (String × α)) (k : String)
    (v : α) : lookupKey (setKey m k v) k = some v := by
  induction m with
  | nil => simp [lookupKey, setKey, List.find?_cons]
  | cons p rest ih =>
    by_cases hp : (p.1 == k) = true
    · simp [lookupKey, setKey, hp, List.find?_cons]
    · have hp2 : (p.1 == k) = false := Bool.eq_false_iff.mpr hp
      simp only [setKey, hp2, Bool.false_eq_true, if_false]
      simpa [lookupKey, List.find?_cons, hp2] using ih

lemma lookupKey_setKey_ne {α : Type} (m : List (String × α)) (k k' : String)
    (v : α) (h : k' ≠ k) :
    lookupKey (setKey m k v) k' = lookupKey m k' := by
  have hkk : (k == k') = false := by simpa using fun e => h e.symm
  induction m with
  | nil => simp [lookupKey, setKey, List.find?_cons, hkk]
  | cons p rest ih =>
    by_cases hp : (p.1 == k) = true
    · have hpk : p.1 = k := by simpa using hp
      have hp2 : (p.1 == k') = false := by
        rw [hpk]; simpa using fun e => h e.symm
      simp [lookupKey, setKey, hp, List.find?_cons, hkk, hp2]
    · have hp2 : (p.1 == k) = false := Bool.eq_false_iff.mpr hp
      by_cases hq : (p.1 == k') = true
      · simp [lookupKey, setKey, hp2, List.find?_cons, hq]
      · have hq2 : (p.1 == k') = false := Bool.eq_false_iff.mpr hq
        simp only [setKey, hp2, Bool.false_eq_true, if_false]
        simpa [lookupKey, List.find?_cons, hq2] using ih

lemma setKey_absent {α : Type} (m : List (String × α)) (k : String) (v : α)
    (h : lookupKey m k = none) : setKey m k v = m ++ [(k, v)] := by
  induction m with
  | nil => simp [setKey]
  | cons p rest ih =>
    have hf := Option.map_eq_none'.mp h
    have hp : (p.1 == k) = false := by
      rcases List.find?_eq_none.mp hf p (by simp) with hb
      simpa using hb
    have hrest : lookupKey rest k = none := by
      unfold lookupKey at h ⊢
      rw [List.find?_cons_of_neg _ (by simp [hp])] at h
      exact h
    simp [setKey, hp, ih hrest]

lemma setKey_setKey {α : Type} (m : List (String × α)) (k : String)
    (v w : α) : setKey (setKey m k v) k w = setKey m k w := by
  induction m with
  | nil => simp [setKey]
  | cons p rest ih =>
    by_cases hp : (p.1 == k) = true
    · simp [setKey, hp]
    · have hp2 : (p.1 == k) = false := Bool.eq_false_iff.mpr hp
      simp [setKey, hp2, ih]

lemma length_setKey_absent {α : Type} (m : List (String × α)) (k : String)
    (v : α) (h : lookupKey m k = none) :
    (setKey m k v).length = m.length + 1 := by
  rw [setKey_absent m k v h]
  simp

/-! ### Rounding lemmas: every value written by the pricing recalculation
is an integer number of half-dollars, on which 2-decimal rounding is the
identity. -/

lemma roundHalfEven_intCast (n : ℤ) : roundHalfEven (n : ℚ) = n := by
  unfold roundHalfEven
  simp [Int.floor_intCast]

lemma round2_half_int (n : ℤ) : round2 ((n : ℚ) / 2) = (n : ℚ) / 2 := by
  unfold round2
  have h : (100 : ℚ) * ((n : ℚ) / 2) = ((50 * n : ℤ) : ℚ) := by
    push_cast; ring
  rw [h, roundHalfEven_intCast]
  push_cast; ring

lemma round2_id_of_half (x : ℚ) (n : ℤ) (h : x = (n : ℚ) / 2) :
    round2 x = x := by
  rw [h]; exact round2_half_int n

/-! ### The pricing invariant -/

lemma computeTotals_subtotal (items : List LineItem) :
    (computeTotals items).subtotal = round2 ((items.map (·.line_total)).sum) := rfl

lemma computeTotals_tax (items : List LineItem) :
    (computeTotals items).tax
      = round2 ((items.map (·.line_total)).sum * (1/10)) := rfl

lemma computeTotals_shipping (items : List LineItem) :
    (computeTotals items).shipping
      = round2 (if 0 < (items.map (·.line_total)).sum then (5 : ℚ) else 0) := rfl

lemma computeTotals_total (items : List LineItem) :
    (computeTotals items).total
      = round2 ((items.map (·.line_total)).sum
          + (items.map (·.line_total)).sum * (1/10)
          + (if 0 < (items.map (·.line_total)).sum then (5 : ℚ) else 0)) := rfl

lemma sum_recalc_line_totals (l : List LineItem) :
    ((recalcItems l).map (·.line_total)).sum
      = (((l.map (·.quantity)).sum : ℤ) : ℚ) * 5 := by
  induction l with
  | nil => simp [recalcItems]
  | cons it rest ih =>
    simp only [recalcItems, List.map_cons, List.sum_cons] at ih ⊢
    rw [ih]
    simp only [ITEM_PRICE]
    push_cast
    ring

lemma computeTotals_invariant (l : List LineItem) :
    totalsInvariant (recalcItems l) (computeTotals (recalcItems l)) := by
  have hS : ((recalcItems l).map (·.line_total)).sum
      = (((l.map (·.quantity)).sum : ℤ) : ℚ) * 5 := sum_recalc_line_totals l
  set S : ℚ := ((recalcItems l).map (·.line_total)).sum with hSdef
  set n : ℤ := (l.map (·.quantity)).sum with hndef
  have hsub : round2 S = S :=
    round2_id_of_half S (10 * n) (by rw [hS]; push_cast; ring)
  have htax : round2 (S * (1/10)) = S * (1/10) :=
    round2_id_of_half _ n (by rw [hS]; ring)
  have hship : round2 (if 0 < S then (5 : ℚ) else 0)
      = (if 0 < S then (5 : ℚ) else 0) := by
    by_cases h0 : 0 < S
    · rw [if_pos h0]; exact round2_id_of_half _ 10 (by norm_num)
    · rw [if_neg h0]; exact round2_id_of_half _ 0 (by norm_num)
  have htot : round2 (S + S * (1/10) + (if 0 < S then (5 : ℚ) else 0))
      = S + S * (1/10) + (if 0 < S then (5 : ℚ) else 0) := by
    by_cases h0 : 0 < S
    · rw [if_pos h0]
      exact round2_id_of_half _ (11 * n + 10) (by rw [hS]; push_cast; ring)
    · rw [if_neg h0]
      exact round2_id_of_half _ (11 * n) (by rw [hS]; push_cast; ring)
  refine ⟨?_, ?_, ?_, ?_, ?_⟩
  · rw [computeTotals_total, computeTotals_subtotal, computeTotals_tax,
      computeTotals_shipping, ← hSdef, htot, hsub, htax, hship]
  · rw [computeTotals_subtotal, ← hSdef, hsub]
  · rw [computeTotals_tax, computeTotals_subtotal, ← hSdef, htax, hsub]
  · rw [computeTotals_shipping, computeTotals_subtotal, ← hSdef, hship, hsub]
  · intro it hit
    rcases List.mem_map.mp hit with ⟨x, _, rfl⟩
    rfl

lemma recalculate_totalsOk (c : Checkout) :
    totalsOk (recalculate_checkout c) := by
  intro t ht
  have h1 : (recalculate_checkout c).totals
      = some (computeTotals (recalcItems c.line_items)) := rfl
  have h2 : (recalculate_checkout c).line_items = recalcItems c.line_items := rfl
  rw [h1] at ht
  rw [h2, ← Option.some_inj.mp ht]
  exact computeTotals_invariant c.line_items

/-! ### Line-item search lemmas -/

lemma itemQuantity_recalc (c : Checkout) (pid : String) :
    itemQuantity (recalculate_checkout c) pid = itemQuantity c pid := by
  show ((recalcItems c.line_items).find?
      (fun it => it.product_id == pid)).map (·.quantity) = _
  unfold recalcItems
  rw [List.find?_map, Option.map_map]
  rfl

lemma find_bumpFirst (l : List LineItem) (pid : String) (q : Int) :
    ((bumpFirst l pid q).find? (fun it => it.product_id == pid)).map (·.quantity)
      = ((l.find? (fun it => it.product_id == pid)).map (·.quantity)).map
          (· + q) := by
  induction l with
  | nil => simp [bumpFirst]
  | cons it rest ih =>
    by_cases hp : (it.product_id == pid) = true
    · simp [bumpFirst, hp]
    · simp [bumpFirst, hp, ih]

lemma find_setFirst (l : List LineItem) (pid : String) (q : Int) :
    ((setFirst l pid q).find? (fun it => it.product_id == pid)).map (·.quantity)
      = ((l.find? (fun it => it.product_id == pid)).map (·.quantity)).map
          (fun _ => q) := by
  induction l with
  | nil => simp [setFirst]
  | cons it rest ih =>
    by_cases hp : (it.product_id == pid) = true
    · simp [setFirst, hp]
    · simp [setFirst, hp, ih]

lemma find_append_new (l : List LineItem) (pid : String) (q : Int)
    (h : l.find? (fun it => it.product_id == pid) = none) :
    ((l ++ [({ product_id := pid, quantity := q, line_total := 0 } : LineItem)]).find?
        (fun it => it.product_id == pid)).map (·.quantity) = some q := by
  rw [List.find?_append, h]
  simp

lemma any_iff_find (l : List LineItem) (pid : String) :
    l.any (fun it => it.product_id == pid)
      = (l.find? (fun it => it.product_id == pid)).isSome := by
  induction l with
  | nil => rfl
  | cons it rest ih =>
    by_cases hp : (it.product_id == pid) = true
    · simp [hp]
    · simp [hp, ih]

lemma itemQuantity_isSome_any (c : Checkout) (pid : String) (old : Int)
    (hq : itemQuantity c pid = some old) :
    c.line_items.any (fun it => it.product_id == pid) = true := by
  rw [any_iff_find]
  unfold itemQuantity at hq
  cases hfind : c.line_items.find? (fun it => it.product_id == pid) with
  | none => rw [hfind] at hq; simp at hq
  | some it => simp

lemma itemQuantity_none_any (c : Checkout) (pid : String)
    (hq : itemQuantity c pid = none) :
    c.line_items.any (fun it => it.product_id == pid) = false := by
  rw [any_iff_find]
  unfold itemQuantity at hq
  cases hfind : c.line_items.find? (fun it => it.product_id == pid) with
  | none => simp
  | some it => rw [hfind] at hq; simp at hq

lemma itemQuantity_none_find (c : Checkout) (pid : String)
    (hq : itemQuantity c pid = none) :
    c.line_items.find? (fun it => it.product_id == pid) = none := by
  unfold itemQuantity at hq
  exact Option.map_eq_none'.mp hq

/-! ### Operation shape lemmas: each tool call, under explicit branch
hypotheses, equals an explicit result/state pair. -/

lemma add_present_state (s : AgentState) (cid pid sid : String) (q old : Int)
    (c c2 : Checkout) (h : lookupKey s.checkouts cid = some c)
    (hq : itemQuantity c pid = some old)
    (hc2 : c2 = recalculate_checkout
      { c with line_items := bumpFirst c.line_items pid q }) :
    add_to_checkout s cid pid q sid
      = (Except.ok c2, { s with checkouts := setKey s.checkouts cid c2 }) := by
  have hany := itemQuantity_isSome_any c pid old hq
  subst hc2
  simp only [add_to_checkout, h, hany, if_true]

lemma add_absent_state (s : AgentState) (cid pid sid : String) (q : Int)
    (c c2 : Checkout) (h : lookupKey s.checkouts cid = some c)
    (hq : itemQuantity c pid = none)
    (hc2 : c2 = recalculate_checkout
      { c with line_items := c.line_items
        ++ [{ product_id := pid, quantity := q, line_total := 0 }] }) :
    add_to_checkout s cid pid q sid
      = (Except.ok c2, { s with checkouts := setKey s.checkouts cid c2 }) := by
  have hany := itemQuantity_none_any c pid hq
  subst hc2
  simp only [add_to_checkout, h, hany, Bool.false_eq_true, if_false]

lemma add_create_state (s : AgentState) (cid pid sid : String) (q : Int)
    (c2 : Checkout) (h : lookupKey s.checkouts cid = none)
    (hc2 : c2 = recalculate_checkout (freshCheckout cid sid pid q)) :
    add_to_checkout s cid pid q sid
      = (Except.ok c2, { s with checkouts := setKey s.checkouts cid c2 }) := by
  subst hc2
  simp only [add_to_checkout, h, freshCheckout]
  rfl

lemma remove_found_state (s : AgentState) (cid pid : String) (c c2 : Checkout)
    (h : lookupKey s.checkouts cid = some c)
    (hc2 : c2 = recalculate_checkout
      { c with line_items :=
          c.line_items.filter (fun it => it.product_id != pid) }) :
    remove_from_checkout s cid pid
      = (Except.ok c2, { s with checkouts := setKey s.checkouts cid c2 }) := by
  subst hc2
  simp only [remove_from_checkout, h]

lemma update_zero_state (s : AgentState) (cid pid : String) :
    update_checkout s cid pid 0 = remove_from_checkout s cid pid := by
  simp [update_checkout]

lemma update_present_state (s : AgentState) (cid pid : String) (q old : Int)
    (c c2 : Checkout) (hq0 : q ≠ 0) (h : lookupKey s.checkouts cid = some c)
    (hq : itemQuantity c pid = some old)
    (hc2 : c2 = recalculate_checkout
      { c with line_items := setFirst c.line_items pid q }) :
    update_checkout s cid pid q
      = (Except.ok c2, { s with checkouts := setKey s.checkouts cid c2 }) := by
  have hany := itemQuantity_isSome_any c pid old hq
  subst hc2
  simp only [update_checkout, if_neg hq0, h, hany, if_true]

lemma update_absent_state (s : AgentState) (cid pid : String) (q : Int)
    (c : Checkout) (hq0 : q ≠ 0) (h : lookupKey s.checkouts cid = some c)
    (hq : itemQuantity c pid = none) :
    update_checkout s cid pid q
      = (Except.error "Product not found in checkout", s) := by
  have hany := itemQuantity_none_any c pid hq
  simp only [update_checkout, if_neg hq0, h, hany, Bool.false_eq_true,
    if_false]

lemma customer_found_state (s : AgentState) (cid email : String)
    (addr : Option (List (String × String))) (c c2 : Checkout)
    (h : lookupKey s.checkouts cid = some c)
    (hc2 : c2 = { c with customer := mergedCustomer c email addr }) :
    update_customer_details s cid email addr
      = (Except.ok c2, { s with checkouts := setKey s.checkouts cid c2 }) := by
  subst hc2
  simp only [update_customer_details, h, mergedCustomer]

lemma start_empty_state (s : AgentState) (cid : String) (c : Checkout)
    (h : lookupKey s.checkouts cid = some c) (he : c.line_items = []) :
    start_payment s cid = (Except.error "Checkout is empty", s) := by
  have hb : c.line_items.isEmpty = true := by simp [he]
  simp only [start_payment, h, hb, if_true]

lemma start_noemail_state (s : AgentState) (cid : String) (c : Checkout)
    (h : lookupKey s.checkouts cid = some c) (hne : c.line_items ≠ [])
    (hm : c.customer.email = none) :
    start_payment s cid = (Except.error "Customer email required", s) := by
  have hb : c.line_items.isEmpty = false := by
    simpa [List.isEmpty_iff] using hne
  have hn : c.customer.email.isNone = true := by simp [hm]
  simp only [start_payment, h, hb, Bool.false_eq_true, if_false, hn, if_true]

lemma start_ok_state (s : AgentState) (cid : String) (c c2 : Checkout)
    (h : lookupKey s.checkouts cid = some c) (hne : c.line_items ≠ [])
    (hm : c.customer.email ≠ none)
    (hc2 : c2 = { c with status := "ready_for_payment" }) :
    start_payment s cid
      = (Except.ok c2, { s with checkouts := setKey s.checkouts cid c2 }) := by
  have hb : c.line_items.isEmpty = false := by
    simpa [List.isEmpty_iff] using hne
  have hn : c.customer.email.isNone = false := by
    rw [Bool.eq_false_iff]
    intro hcontra
    exact hm (Option.isNone_iff_eq_none.mp hcontra)
  subst hc2
  simp only [start_payment, h, hb, Bool.false_eq_true, if_false, hn]

lemma complete_notready_state (s : AgentState) (cid tok : String) (ts : Int)
    (ca : ℚ) (c : Checkout) (h : lookupKey s.checkouts cid = some c)
    (hs : c.status ≠ "ready_for_payment") :
    complete_checkout s cid tok ts ca
      = (Except.error "Checkout not ready for completion", s) := by
  have hb : (c.status != "ready_for_payment") = true := by
    simpa [bne_iff_ne] using hs
  simp only [complete_checkout, h, hb, if_true]

lemma complete_ready_state (s : AgentState) (cid tok : String) (ts : Int)
    (ca : ℚ) (c c2 : Checkout) (h : lookupKey s.checkouts cid = some c)
    (hs : c.status = "ready_for_payment")
    (hc2 : c2 = { c with status := "completed" }) :
    complete_checkout s cid tok ts ca
      = (Except.ok (mkOrder cid c tok ts ca),
         { checkouts := setKey s.checkouts cid c2,
           orders := setKey s.orders (orderIdOf ts)
             (mkOrder cid c tok ts ca) }) := by
  have hb : (c.status != "ready_for_payment") = false := by
    simp [bne_iff_ne, hs]
  subst hc2
  simp only [complete_checkout, h, hb, Bool.false_eq_true, if_false]

/-! ### Derived facts about the mutations -/

lemma quantityOf_mk (m : List (String × Checkout))
    (os : List (String × Order)) (cid pid : String) (c : Checkout) :
    quantityOf { checkouts := setKey m cid c, orders := os } cid pid
      = itemQuantity c pid := by
  unfold quantityOf
  rw [lookupKey_setKey_self]
  rfl

lemma statusOf_mk (m : List (String × Checkout))
    (os : List (String × Order)) (cid : String) (c : Checkout) :
    statusOf { checkouts := setKey m cid c, orders := os } cid
      = some c.status := by
  unfold statusOf
  rw [lookupKey_setKey_self]
  rfl

lemma itemQuantity_field (c : Checkout) (l : List LineItem) (pid : String) :
    itemQuantity { c with line_items := l } pid
      = (l.find? (fun it => it.product_id == pid)).map (·.quantity) := rfl

lemma quantityOf_add_present (s : AgentState) (cid pid sid : String)
    (q old : Int) (c : Checkout) (h : lookupKey s.checkouts cid = some c)
    (hq : itemQuantity c pid = some old) :
    quantityOf (add_to_checkout s cid pid q sid).2 cid pid
      = some (old + q) := by
  rw [add_present_state s cid pid sid q old c _ h hq rfl]
  show quantityOf { s with checkouts := setKey s.checkouts cid _ } cid pid = _
  rw [quantityOf_mk, itemQuantity_recalc, itemQuantity_field, find_bumpFirst]
  unfold itemQuantity at hq
  rw [hq]
  rfl

lemma quantityOf_add_absent (s : AgentState) (cid pid sid : String) (q : Int)
    (c : Checkout) (h : lookupKey s.checkouts cid = some c)
    (hq : itemQuantity c pid = none) :
    quantityOf (add_to_checkout s cid pid q sid).2 cid pid = some q := by
  rw [add_absent_state s cid pid sid q c _ h hq rfl]
  show quantityOf { s with checkouts := setKey s.checkouts cid _ } cid pid = _
  rw [quantityOf_mk, itemQuantity_recalc, itemQuantity_field,
    find_append_new _ _ _ (itemQuantity_none_find c pid hq)]

lemma quantityOf_add_create (s : AgentState) (cid pid sid : String) (q : Int)
    (h : lookupKey s.checkouts cid = none) :
    quantityOf (add_to_checkout s cid pid q sid).2 cid pid = some q := by
  rw [add_create_state s cid pid sid q _ h rfl]
  show quantityOf { s with checkouts := setKey s.checkouts cid _ } cid pid = _
  rw [quantityOf_mk, itemQuantity_recalc]
  simp [itemQuantity, freshCheckout]

lemma quantityOf_update_present (s : AgentState) (cid pid : String)
    (q old : Int) (c : Checkout) (hq0 : q ≠ 0)
    (h : lookupKey s.checkouts cid = some c)
    (hq : itemQuantity c pid = some old) :
    quantityOf (update_checkout s cid pid q).2 cid pid = some q := by
  rw [update_present_state s cid pid q old c _ hq0 h hq rfl]
  show quantityOf { s with checkouts := setKey s.checkouts cid _ } cid pid = _
  rw [quantityOf_mk, itemQuantity_recalc, itemQuantity_field, find_setFirst]
  unfold itemQuantity at hq
  rw [hq]
  rfl

lemma add_result_ok (s : AgentState) (cid pid sid : String) (q : Int) :
    resultIsOk (add_to_checkout s cid pid q sid).1 = true := by
  cases hl : lookupKey s.checkouts cid with
  | some c =>
    cases hq : itemQuantity c pid with
    | some old => rw [add_present_state s cid pid sid q old c _ hl hq rfl]; rfl
    | none => rw [add_absent_state s cid pid sid q c _ hl hq rfl]; rfl
  | none => rw [add_create_state s cid pid sid q _ hl rfl]; rfl

lemma statusOf_add (s : AgentState) (cid pid sid : String) (q : Int)
    (c : Checkout) (h : lookupKey s.checkouts cid = some c) :
    statusOf (add_to_checkout s cid pid q sid).2 cid = some c.status := by
  cases hq : itemQuantity c pid with
  | some old =>
    rw [add_present_state s cid pid sid q old c _ h hq rfl]
    show statusOf { s with checkouts := setKey s.checkouts cid _ } cid = _
    rw [statusOf_mk]
    rfl
  | none =>
    rw [add_absent_state s cid pid sid q c _ h hq rfl]
    show statusOf { s with checkouts := setKey s.checkouts cid _ } cid = _
    rw [statusOf_mk]
    rfl

lemma statusOf_remove (s : AgentState) (cid pid : String) (c : Checkout)
    (h : lookupKey s.checkouts cid = some c) :
    statusOf (remove_from_checkout s cid pid).2 cid = some c.status := by
  rw [remove_found_state s cid pid c _ h rfl]
  show statusOf { s with checkouts := setKey s.checkouts cid _ } cid = _
  rw [statusOf_mk]
  rfl

lemma statusOf_update (s : AgentState) (cid pid : String) (q : Int)
    (c : Checkout) (h : lookupKey s.checkouts cid = some c) :
    statusOf (update_checkout s cid pid q).2 cid = some c.status := by
  by_cases hq0 : q = 0
  · subst hq0
    rw [update_zero_state]
    exact statusOf_remove s cid pid c h
  · cases hq : itemQuantity c pid with
    | some old =>
      rw [update_present_state s cid pid q old c _ hq0 h hq rfl]
      show statusOf { s with checkouts := setKey s.checkouts cid _ } cid = _
      rw [statusOf_mk]
      rfl
    | none =>
      rw [update_absent_state s cid pid q c hq0 h hq]
      show statusOf s cid = some c.status
      unfold statusOf
      rw [h]
      rfl

lemma statusOf_customer (s : AgentState) (cid email : String)
    (addr : Option (List (String × String))) (c : Checkout)
    (h : lookupKey s.checkouts cid = some c) :
    statusOf (update_customer_details s cid email addr).2 cid
      = some c.status := by
  rw [customer_found_state s cid email addr c _ h rfl]
  show statusOf { s with checkouts := setKey s.checkouts cid _ } cid = _
  rw [statusOf_mk]

lemma statusOf_start (s : AgentState) (cid : String) (c : Checkout)
    (h : lookupKey s.checkouts cid = some c) :
    statusOf (start_payment s cid).2 cid = some c.status
      ∨ statusOf (start_payment s cid).2 cid = some "ready_for_payment" := by
  by_cases he : c.line_items = []
  · left
    rw [start_empty_state s cid c h he]
    show statusOf s cid = some c.status
    unfold statusOf
    rw [h]
    rfl
  · by_cases hm : c.customer.email = none
    · left
      rw [start_noemail_state s cid c h he hm]
      show statusOf s cid = some c.status
      unfold statusOf
      rw [h]
      rfl
    · right
      rw [start_ok_state s cid c _ h he hm rfl]
      show statusOf { s with checkouts := setKey s.checkouts cid _ } cid = _
      rw [statusOf_mk]

lemma statusOf_complete (s : AgentState) (cid tok : String) (ts : Int)
    (ca : ℚ) (c : Checkout) (h : lookupKey s.checkouts cid = some c) :
    statusOf (complete_checkout s cid tok ts ca).2 cid = some c.status
      ∨ (c.status = "ready_for_payment"
          ∧ statusOf (complete_checkout s cid tok ts ca).2 cid
              = some "completed") := by
  by_cases hs : c.status = "ready_for_payment"
  · right
    refine ⟨hs, ?_⟩
    rw [complete_ready_state s cid tok ts ca c _ h hs rfl]
    show statusOf { checkouts := setKey s.checkouts cid _, orders := _ } cid = _
    rw [statusOf_mk]
  · left
    rw [complete_notready_state s cid tok ts ca c h hs]
    show statusOf s cid = some c.status
    unfold statusOf
    rw [h]
    rfl

/-! ### Preservation of the pricing invariant by every mutation -/

lemma mapTotalsOk_set (m : List (String × Checkout)) (cid : String)
    (c : Checkout) (h : mapTotalsOk m) (hc : totalsOk c) :
    mapTotalsOk (setKey m cid c) := by
  intro cid' c' hl
  by_cases e : cid' = cid
  · subst e
    rw [lookupKey_setKey_self] at hl
    rw [← Option.some_inj.mp hl]
    exact hc
  · rw [lookupKey_setKey_ne m cid cid' c e] at hl
    exact h cid' c' hl

lemma stateTotalsOk_remove (s : AgentState) (cid pid : String)
    (h : stateTotalsOk s) :
    stateTotalsOk (remove_from_checkout s cid pid).2 := by
  cases hl : lookupKey s.checkouts cid with
  | some c =>
    rw [remove_found_state s cid pid c _ hl rfl]
    exact mapTotalsOk_set _ _ _ h (recalculate_totalsOk _)
  | none =>
    have heq : remove_from_checkout s cid pid
        = (Except.error "Checkout not found", s) := by
      simp only [remove_from_checkout, hl]
    rw [heq]
    exact h

lemma stateTotalsOk_applyMut (s : AgentState) (cid : String) (op : MutOp)
    (h : stateTotalsOk s) : stateTotalsOk (applyMut s cid op) := by
  cases op with
  | add pid q sid =>
    show stateTotalsOk (add_to_checkout s cid pid q sid).2
    cases hl : lookupKey s.checkouts cid with
    | some c =>
      cases hq : itemQuantity c pid with
      | some old =>
        rw [add_present_state s cid pid sid q old c _ hl hq rfl]
        exact mapTotalsOk_set _ _ _ h (recalculate_totalsOk _)
      | none =>
        rw [add_absent_state s cid pid sid q c _ hl hq rfl]
        exact mapTotalsOk_set _ _ _ h (recalculate_totalsOk _)
    | none =>
      rw [add_create_state s cid pid sid q _ hl rfl]
      exact mapTotalsOk_set _ _ _ h (recalculate_totalsOk _)
  | remove pid => exact stateTotalsOk_remove s cid pid h
  | update pid q =>
    show stateTotalsOk (update_checkout s cid pid q).2
    by_cases hq0 : q = 0
    · subst hq0
      rw [update_zero_state]
      exact stateTotalsOk_remove s cid pid h
    · cases hl : lookupKey s.checkouts cid with
      | some c =>
        cases hq : itemQuantity c pid with
        | some old =>
          rw [update_present_state s cid pid q old c _ hq0 hl hq rfl]
          exact mapTotalsOk_set _ _ _ h (recalculate_totalsOk _)
        | none =>
          rw [update_absent_state s cid pid q c hq0 hl hq]
          exact h
      | none =>
        have heq : update_checkout s cid pid q
            = (Except.error "Checkout not found", s) := by
          simp only [update_checkout, if_neg hq0, hl]
        rw [heq]
        exact h

lemma stateTotalsOk_applyMuts (ops : List MutOp) (s : AgentState)
    (cid : String) (h : stateTotalsOk s) :
    stateTotalsOk (applyMuts s cid ops) := by
  induction ops generalizing s with
  | nil => exact h
  | cons op rest ih => exact ih _ (stateTotalsOk_applyMut s cid op h)

lemma stateTotalsOk_initial : stateTotalsOk initialState := by
  intro cid c h
  simp [initialState, lookupKey] at h

lemma lookupKey_filter_self {α : Type} (m : List (String × α)) (k : String) :
    lookupKey (m.filter (fun p => p.1 != k)) k = none := by
  unfold lookupKey
  rw [Option.map_eq_none']
  rw [List.find?_eq_none]
  intro x hx
  have hmem := List.mem_filter.mp hx
  have hb : (x.1 != k) = true := hmem.2
  rw [bne_iff_ne] at hb
  simp [hb]

lemma setKey_forall {α : Type} (P : α → Prop) (m : List (String × α))
    (k : String) (v : α) (h : ∀ p ∈ m, P p.2) (hv : P v) :
    ∀ p ∈ setKey m k v, P p.2 := by
  induction m with
  | nil =>
    intro p hp
    simp only [setKey, List.mem_singleton] at hp
    rw [hp]
    exact hv
  | cons q rest ih =>
    intro p hp
    simp only [setKey] at hp
    by_cases hqk : (q.1 == k) = true
    · rw [if_pos hqk] at hp
      rcases List.mem_cons.mp hp with he | hr
      · rw [he]; exact hv
      · exact h p (List.mem_cons_of_mem q hr)
    · rw [if_neg hqk] at hp
      rcases List.mem_cons.mp hp with he | hr
      · rw [he]; exact h q (List.mem_cons_self q rest)
      · exact ih (fun r hr2 => h r (List.mem_cons_of_mem q hr2)) p hr

lemma generate_otp_codes_nonempty (pending : OtpStore) (mid otp : String)
    (h : ∀ p ∈ pending, p.2 ≠ "") (hotp : otp ≠ "") :
    ∀ p ∈ (generate_otp pending mid otp).2, p.2 ≠ "" :=
  setKey_forall (fun v => v ≠ "") pending mid otp h hotp

lemma lookupKey_mem {α : Type} (m : List (String × α)) (k : String) (v : α)
    (h : lookupKey m k = some v) : ∃ k', (k', v) ∈ m := by
  unfold lookupKey at h
  cases hf : m.find? (fun p => p.1 == k) with
  | none => rw [hf] at h; simp at h
  | some p =>
    rw [hf] at h
    have hp : p ∈ m := List.mem_of_find?_eq_some hf
    refine ⟨p.1, ?_⟩
    have hv : p.2 = v := by simpa using h
    rw [← hv]
    exact hp

/-! ### Claim theorems -/

/-- Claim C8: for every store state, checkout id and product id,
`update_checkout` with quantity 0 returns exactly the same result and
resulting state as `remove_from_checkout` — including the recomputed
totals, since the two are equal as whole result/state pairs. -/
theorem update_zero_equals_remove (s : AgentState) (cid pid : String) :
    update_checkout s cid pid 0 = remove_from_checkout s cid pid :=
  update_zero_state s cid pid

/-- Claim C10: for every mandate, OTP store and environment draw — hence
for all three receipt variants — the receipt returned by
`process_payment` carries the mandate's `payment_mandate_id` and the
mandate's `payment_details_total.amount`. -/
theorem receipt_preserves_id_and_amount (pending : OtpStore)
    (m : PaymentMandate) (env : PaymentEnv) :
    (process_payment pending m env).1.payment_mandate_id
        = m.payment_mandate_contents.payment_mandate_id
    ∧ (process_payment pending m env).1.amount
        = m.payment_mandate_contents.payment_details_total.amount := by
  cases hv : validate_mandate_signature m <;>
    cases hs : env.settle_success <;>
      simp [process_payment, hv, hs]

/-- Claim C2: starting from the fresh store, after every sequence of
`add_to_checkout`/`remove_from_checkout`/`update_checkout` mutations on
one checkout, the stored totals satisfy
`total = subtotal + tax + shipping` exactly,
`subtotal = Σ line_total`, `tax = subtotal * 10%`,
`shipping = 5 iff subtotal > 0`, and every stored
`line_total = unit_price * quantity`. -/
theorem totals_invariant_after_every_mutation (ops : List MutOp)
    (cid : String) (c : Checkout)
    (h : lookupKey (applyMuts initialState cid ops).checkouts cid = some c) :
    totalsOk c :=
  stateTotalsOk_applyMuts ops initialState cid stateTotalsOk_initial cid c h

/-- Claim C2 witness: the invariant instantiated on the concrete sequence
that adds two units of one product. -/
theorem totals_invariant_after_every_mutation_witness :
    lookupKey (applyMuts initialState "c1"
        [MutOp.add "p1" 2 "s1"]).checkouts "c1"
      = some (recalculate_checkout (freshCheckout "c1" "s1" "p1" 2))
    ∧ totalsOk (recalculate_checkout (freshCheckout "c1" "s1" "p1" 2)) :=
  ⟨rfl, totals_invariant_after_every_mutation [MutOp.add "p1" 2 "s1"]
    "c1" (recalculate_checkout (freshCheckout "c1" "s1" "p1" 2)) rfl⟩

/-- Claim C3 (counterexample): `add_to_checkout` called with quantity 0
on a fresh store returns a success (not an `InvalidQuantity` error — no
such error exists in the code) and stores the line item with quantity 0,
so the checkout does not remain unchanged. -/
theorem nonpositive_quantity_accepted_counterexample :
    resultIsOk (add_to_checkout initialState "c1" "p1" 0 "s1").1 = true
    ∧ quantityOf (add_to_checkout initialState "c1" "p1" 0 "s1").2 "c1" "p1"
        = some 0
    ∧ lookupKey initialState.checkouts "c1" = none :=
  ⟨rfl, rfl, rfl⟩

/-- Claim C3 (amended): `add_to_checkout` performs no quantity
validation: for every non-positive quantity it still returns a success
and stores the quantity exactly as given — accumulated onto an existing
line item, or as a new line item — never an error and never coerced. -/
theorem add_item_accepts_any_quantity (s : AgentState)
    (cid pid sid : String) (q : Int) (_hq : q ≤ 0) :
    resultIsOk (add_to_checkout s cid pid q sid).1 = true
    ∧ (∀ c old, lookupKey s.checkouts cid = some c →
        itemQuantity c pid = some old →
        quantityOf (add_to_checkout s cid pid q sid).2 cid pid
          = some (old + q))
    ∧ (∀ c, lookupKey s.checkouts cid = some c →
        itemQuantity c pid = none →
        quantityOf (add_to_checkout s cid pid q sid).2 cid pid = some q)
    ∧ (lookupKey s.checkouts cid = none →
        quantityOf (add_to_checkout s cid pid q sid).2 cid pid = some q) :=
  ⟨add_result_ok s cid pid sid q,
   fun c old h hqi => quantityOf_add_present s cid pid sid q old c h hqi,
   fun c h hqi => quantityOf_add_absent s cid pid sid q c h hqi,
   fun h => quantityOf_add_create s cid pid sid q h⟩

/-- Claim C3 witness: the amended claim instantiated at quantity 0 on the
fresh store. -/
theorem add_item_accepts_any_quantity_witness :
    (0 : Int) ≤ 0
    ∧ (resultIsOk (add_to_checkout initialState "c1" "p1" 0 "s1").1 = true
      ∧ (∀ c old, lookupKey initialState.checkouts "c1" = some c →
          itemQuantity c "p1" = some old →
          quantityOf (add_to_checkout initialState "c1" "p1" 0 "s1").2
              "c1" "p1" = some (old + 0))
      ∧ (∀ c, lookupKey initialState.checkouts "c1" = some c →
          itemQuantity c "p1" = none →
          quantityOf (add_to_checkout initialState "c1" "p1" 0 "s1").2
              "c1" "p1" = some 0)
      ∧ (lookupKey initialState.checkouts "c1" = none →
          quantityOf (add_to_checkout initialState "c1" "p1" 0 "s1").2
              "c1" "p1" = some 0)) :=
  ⟨by decide, add_item_accepts_any_quantity initialState "c1" "p1" "s1" 0
    (by decide)⟩

/-- Claim C4 (counterexample): on a concrete mandate whose
`user_authorization` is the empty string, `process_payment` returns an
`Error` receipt whose message is "Invalid mandate signature"
(capital I), not the claimed "invalid mandate signature". -/
theorem invalid_mandate_message_counterexample :
    (process_payment [] exMandateNoAuth exEnv).1.payment_status
        = PaymentStatus.error "Invalid mandate signature"
    ∧ (process_payment [] exMandateNoAuth exEnv).1.payment_status
        ≠ PaymentStatus.error "invalid mandate signature" :=
  ⟨rfl, by decide⟩

/-- Claim C4 (amended): for every mandate whose `user_authorization` is
the empty string, `process_payment` returns the `Error` receipt with
message "Invalid mandate signature" — never a `Success` or `Failure`
variant, with the error-branch payment id and no payment-method details —
the pending-OTP store is untouched (no challenge is issued), and the
returned receipt does not depend on the settlement draw. -/
theorem empty_authorization_error_receipt (pending : OtpStore)
    (m : PaymentMandate) (env : PaymentEnv)
    (h : m.user_authorization = "") :
    (process_payment pending m env).1
      = { payment_mandate_id := m.payment_mandate_contents.payment_mandate_id,
          timestamp := env.timestamp,
          payment_id := env.err_payment_id,
          amount := m.payment_mandate_contents.payment_details_total.amount,
          payment_status := PaymentStatus.error "Invalid mandate signature",
          payment_method_details := none }
    ∧ (process_payment pending m env).2 = pending := by
  have hv : validate_mandate_signature m = false := by
    simp [validate_mandate_signature, h]
  constructor <;> simp [process_payment, hv]

/-- Claim C4 witness: the amended claim instantiated at the concrete
empty-authorization mandate. -/
theorem empty_authorization_error_receipt_witness :
    exMandateNoAuth.user_authorization = ""
    ∧ ((process_payment [] exMandateNoAuth exEnv).1
        = { payment_mandate_id :=
              exMandateNoAuth.payment_mandate_contents.payment_mandate_id,
            timestamp := exEnv.timestamp,
            payment_id := exEnv.err_payment_id,
            amount := exMandateNoAuth.payment_mandate_contents.payment_details_total.amount,
            payment_status := PaymentStatus.error "Invalid mandate signature",
            payment_method_details := none }
      ∧ (process_payment [] exMandateNoAuth exEnv).2 = []) :=
  ⟨rfl, empty_authorization_error_receipt [] exMandateNoAuth exEnv rfl⟩

/-- Claim C5: for every stored checkout, `complete_checkout` fails with
the not-ready error and leaves the state unchanged when the status is not
`ready_for_payment`; when the status is `ready_for_payment` it returns
the constructed order, marks the checkout `completed`, stores exactly
that one order (one new entry when the generated order id is fresh), and
a second `complete_checkout` on the resulting state fails with the
not-ready error and changes nothing, so two consecutive calls create
exactly one order. -/
theorem complete_checkout_exactly_once (s : AgentState)
    (cid tok tok2 : String) (ts ts2 : Int) (ca ca2 : ℚ) (c : Checkout)
    (h : lookupKey s.checkouts cid = some c) :
    (c.status ≠ "ready_for_payment" →
      complete_checkout s cid tok ts ca
        = (Except.error "Checkout not ready for completion", s))
    ∧ (c.status = "ready_for_payment" →
        (complete_checkout s cid tok ts ca).1
            = Except.ok (mkOrder cid c tok ts ca)
        ∧ statusOf (complete_checkout s cid tok ts ca).2 cid
            = some "completed"
        ∧ (complete_checkout s cid tok ts ca).2.orders
            = setKey s.orders (orderIdOf ts) (mkOrder cid c tok ts ca)
        ∧ (lookupKey s.orders (orderIdOf ts) = none →
            (complete_checkout s cid tok ts ca).2.orders.length
              = s.orders.length + 1)
        ∧ complete_checkout (complete_checkout s cid tok ts ca).2
              cid tok2 ts2 ca2
            = (Except.error "Checkout not ready for completion",
               (complete_checkout s cid tok ts ca).2)) := by
  constructor
  · intro hs
    exact complete_notready_state s cid tok ts ca c h hs
  · intro hs
    rw [complete_ready_state s cid tok ts ca c _ h hs rfl]
    refine ⟨rfl, ?_, rfl, ?_, ?_⟩
    · show statusOf { checkouts := setKey s.checkouts cid _, orders := _ } cid
          = _
      rw [statusOf_mk]
    · intro hfresh
      exact length_setKey_absent s.orders (orderIdOf ts)
        (mkOrder cid c tok ts ca) hfresh
    · refine complete_notready_state _ cid tok2 ts2 ca2
        { c with status := "completed" }
        (lookupKey_setKey_self s.checkouts cid _) ?_
      show ("completed" : String) ≠ "ready_for_payment"
      decide

/-- Claim C5 witness: instantiated at the concrete ready-for-payment
checkout. -/
theorem complete_checkout_exactly_once_witness :
    lookupKey exReadyState.checkouts "c1" = some exReady
    ∧ ((exReady.status ≠ "ready_for_payment" →
        complete_checkout exReadyState "c1" "tok" 0 0
          = (Except.error "Checkout not ready for completion", exReadyState))
      ∧ (exReady.status = "ready_for_payment" →
          (complete_checkout exReadyState "c1" "tok" 0 0).1
              = Except.ok (mkOrder "c1" exReady "tok" 0 0)
          ∧ statusOf (complete_checkout exReadyState "c1" "tok" 0 0).2 "c1"
              = some "completed"
          ∧ (complete_checkout exReadyState "c1" "tok" 0 0).2.orders
              = setKey exReadyState.orders (orderIdOf 0)
                  (mkOrder "c1" exReady "tok" 0 0)
          ∧ (lookupKey exReadyState.orders (orderIdOf 0) = none →
              (complete_checkout exReadyState "c1" "tok" 0 0).2.orders.length
                = exReadyState.orders.length + 1)
          ∧ complete_checkout
                (complete_checkout exReadyState "c1" "tok" 0 0).2
                "c1" "tok" 1 1
              = (Except.error "Checkout not ready for completion",
                 (complete_checkout exReadyState "c1" "tok" 0 0).2))) :=
  ⟨rfl, complete_checkout_exactly_once exReadyState "c1" "tok" "tok" 0 1
    0 1 exReady rfl⟩

/-- Claim C6: for every pending-OTP store whose stored codes are
non-empty (as every code issued by `generate_otp` is — six digits),
`verify_otp` returns true exactly when an outstanding code exists for the
mandate id and equals the submitted code; on success the stored code is
deleted, on failure the store is untouched, and a second `verify_otp`
with the same code after a success returns false. -/
theorem verify_otp_single_use (pending : OtpStore) (mid code : String)
    (hne : ∀ p ∈ pending, p.2 ≠ "") :
    ((verify_otp pending mid code).1 = true
        ↔ lookupKey pending mid = some code)
    ∧ ((verify_otp pending mid code).1 = true →
        lookupKey (verify_otp pending mid code).2 mid = none)
    ∧ ((verify_otp pending mid code).1 = false →
        (verify_otp pending mid code).2 = pending)
    ∧ ((verify_otp pending mid code).1 = true →
        (verify_otp (verify_otp pending mid code).2 mid code).1 = false) := by
  cases hl : lookupKey pending mid with
  | none =>
    have hv : verify_otp pending mid code = (false, pending) := by
      simp only [verify_otp, hl]
    rw [hv]
    simp [hl]
  | some expected =>
    have hexp : expected ≠ "" := by
      rcases lookupKey_mem pending mid expected hl with ⟨k', hk⟩
      exact hne (k', expected) hk
    by_cases hcode : code = expected
    · subst hcode
      have hv : verify_otp pending mid code
          = (true, pending.filter (fun p => p.1 != mid)) := by
        simp [verify_otp, hl, hexp]
      rw [hv]
      have hdel : lookupKey (pending.filter (fun p => p.1 != mid)) mid
          = none := lookupKey_filter_self pending mid
      refine ⟨?_, ?_, ?_, ?_⟩
      · simp
      · intro _; exact hdel
      · intro hcontra; simp at hcontra
      · intro _
        show (verify_otp (pending.filter (fun p => p.1 != mid)) mid code).1
            = false
        simp only [verify_otp, hdel]
    · have hv : verify_otp pending mid code = (false, pending) := by
        simp only [verify_otp, hl, if_neg hexp, if_neg hcode]
      rw [hv]
      refine ⟨?_, ?_, ?_, ?_⟩
      · constructor
        · intro hcontra; simp at hcontra
        · intro hcontra
          exact absurd (Option.some_inj.mp hcontra).symm hcode
      · intro hcontra; simp at hcontra
      · intro _; rfl
      · intro hcontra; simp at hcontra

/-- Claim C6 witness: instantiated on a store holding the six-digit code
123456 for mandate m1. -/
theorem verify_otp_single_use_witness :
    (∀ p ∈ ([("m1", "123456")] : OtpStore), p.2 ≠ "")
    ∧ (((verify_otp [("m1", "123456")] "m1" "123456").1 = true
          ↔ lookupKey [("m1", "123456")] "m1" = some "123456")
      ∧ ((verify_otp [("m1", "123456")] "m1" "123456").1 = true →
          lookupKey (verify_otp [("m1", "123456")] "m1" "123456").2 "m1"
            = none)
      ∧ ((verify_otp [("m1", "123456")] "m1" "123456").1 = false →
          (verify_otp [("m1", "123456")] "m1" "123456").2
            = [("m1", "123456")])
      ∧ ((verify_otp [("m1", "123456")] "m1" "123456").1 = true →
          (verify_otp (verify_otp [("m1", "123456")] "m1" "123456").2
              "m1" "123456").1 = false)) :=
  ⟨by decide, verify_otp_single_use [("m1", "123456")] "m1" "123456"
    (by decide)⟩

/-- Claim C7: for every stored checkout, `start_payment` fails with the
empty-checkout error when the line items are empty and with the
missing-email error when no customer email is present, leaving the whole
state (hence the status) unchanged in both cases; when both preconditions
hold it sets the status to `ready_for_payment`, and calling it again on
the resulting state succeeds with the identical result and state
(idempotent while already `ready_for_payment`). -/
theorem begin_payment_preconditions_idempotent (s : AgentState)
    (cid : String) (c : Checkout)
    (h : lookupKey s.checkouts cid = some c) :
    (c.line_items = [] →
      start_payment s cid = (Except.error "Checkout is empty", s))
    ∧ (c.line_items ≠ [] → c.customer.email = none →
        start_payment s cid = (Except.error "Customer email required", s))
    ∧ (c.line_items ≠ [] → c.customer.email ≠ none →
        statusOf (start_payment s cid).2 cid = some "ready_for_payment"
        ∧ start_payment (start_payment s cid).2 cid
            = ((start_payment s cid).1, (start_payment s cid).2)) := by
  refine ⟨?_, ?_, ?_⟩
  · intro he
    exact start_empty_state s cid c h he
  · intro hne hm
    exact start_noemail_state s cid c h hne hm
  · intro hne hm
    rw [start_ok_state s cid c _ h hne hm rfl]
    constructor
    · show statusOf { s with checkouts := setKey s.checkouts cid _ } cid = _
      rw [statusOf_mk]
    · rw [start_ok_state _ cid { c with status := "ready_for_payment" } _
        (lookupKey_setKey_self s.checkouts cid _) hne hm rfl]
      show (_, { s with
        checkouts := setKey (setKey s.checkouts cid _) cid _ }) = _
      rw [setKey_setKey]

/-- Claim C7 witness: instantiated at the concrete cart with one line
item and an email. -/
theorem begin_payment_preconditions_idempotent_witness :
    lookupKey exCartState.checkouts "c2" = some exCart
    ∧ ((exCart.line_items = [] →
        start_payment exCartState "c2"
          = (Except.error "Checkout is empty", exCartState))
      ∧ (exCart.line_items ≠ [] → exCart.customer.email = none →
          start_payment exCartState "c2"
            = (Except.error "Customer email required", exCartState))
      ∧ (exCart.line_items ≠ [] → exCart.customer.email ≠ none →
          statusOf (start_payment exCartState "c2").2 "c2"
              = some "ready_for_payment"
          ∧ start_payment (start_payment exCartState "c2").2 "c2"
              = ((start_payment exCartState "c2").1,
                 (start_payment exCartState "c2").2))) :=
  ⟨rfl, begin_payment_preconditions_idempotent exCartState "c2" exCart rfl⟩

/-- Claim C9: for every stored checkout holding the product with a
positive quantity, `add_to_checkout` with positive quantity q accumulates
(stores old + q) while `update_checkout` with the same q replaces
(stores q), and the two resulting states differ; `update_checkout` with
positive quantity on a product not in the checkout returns the
product-not-found error and leaves the state unchanged. -/
theorem add_accumulates_update_replaces (s : AgentState)
    (cid pid sid : String) (q old : Int) (c : Checkout)
    (h : lookupKey s.checkouts cid = some c) (hq : 0 < q) :
    (itemQuantity c pid = some old → 0 < old →
      quantityOf (add_to_checkout s cid pid q sid).2 cid pid
          = some (old + q)
      ∧ quantityOf (update_checkout s cid pid q).2 cid pid = some q
      ∧ (add_to_checkout s cid pid q sid).2 ≠ (update_checkout s cid pid q).2)
    ∧ (itemQuantity c pid = none →
        update_checkout s cid pid q
          = (Except.error "Product not found in checkout", s)) := by
  have hq0 : q ≠ 0 := by omega
  constructor
  · intro hqi hold
    have hadd := quantityOf_add_present s cid pid sid q old c h hqi
    have hupd := quantityOf_update_present s cid pid q old c hq0 h hqi
    refine ⟨hadd, hupd, ?_⟩
    intro heq
    rw [heq, hupd] at hadd
    have : q = old + q := Option.some_inj.mp hadd
    omega
  · intro hqi
    exact update_absent_state s cid pid q c hq0 h hqi

/-- Claim C9 witness: instantiated at the concrete cart holding two units
of p1, with quantity 3. -/
theorem add_accumulates_update_replaces_witness :
    lookupKey exCartState.checkouts "c2" = some exCart
    ∧ (0 : Int) < 3
    ∧ ((itemQuantity exCart "p1" = some 2 → (0 : Int) < 2 →
        quantityOf (add_to_checkout exCartState "c2" "p1" 3 "s2").2
            "c2" "p1" = some (2 + 3)
        ∧ quantityOf (update_checkout exCartState "c2" "p1" 3).2 "c2" "p1"
            = some 3
        ∧ (add_to_checkout exCartState "c2" "p1" 3 "s2").2
            ≠ (update_checkout exCartState "c2" "p1" 3).2)
      ∧ (itemQuantity exCart "p1" = none →
          update_checkout exCartState "c2" "p1" 3
            = (Except.error "Product not found in checkout", exCartState))) :=
  ⟨rfl, by decide,
   add_accumulates_update_replaces exCartState "c2" "p1" "s2" 3 2 exCart
     rfl (by decide)⟩

/-- Claim C1 (counterexample): on a concrete run (add item, set email,
begin payment, complete), the completed checkout is moved backward to
`ready_for_payment` by a further `start_payment` call, and a further
`add_to_checkout` changes its line items (quantity 1 to 2) — so the
status is not monotonic forward-only and completed checkouts are not
immutable to line-item edits. -/
theorem completed_checkout_regression_counterexample :
    statusOf exRun4 "c1" = some "completed"
    ∧ statusOf (start_payment exRun4 "c1").2 "c1"
        = some "ready_for_payment"
    ∧ quantityOf exRun4 "c1" "p1" = some 1
    ∧ quantityOf (add_to_checkout exRun4 "c1" "p1" 1 "s1").2 "c1" "p1"
        = some 2 :=
  ⟨rfl, rfl, rfl, rfl⟩

/-- Claim C1 (amended): for every stored checkout, `add_to_checkout`,
`remove_from_checkout`, `update_checkout` and `update_customer_details`
never change its status; `complete_checkout` either leaves the status
unchanged or moves it from `ready_for_payment` to `completed`; and
`start_payment` either leaves the status unchanged or sets it to
`ready_for_payment` — with no guard on the current status, so it can
also move a `completed` checkout backward; and line-item edits apply to
a checkout regardless of its status (`add_to_checkout` accumulates even
on a completed checkout). -/
theorem status_transitions_per_operation (s : AgentState)
    (cid pid sid email tok : String) (q : Int) (ts : Int) (ca : ℚ)
    (addr : Option (List (String × String))) (c : Checkout)
    (h : lookupKey s.checkouts cid = some c) :
    statusOf (add_to_checkout s cid pid q sid).2 cid = some c.status
    ∧ statusOf (remove_from_checkout s cid pid).2 cid = some c.status
    ∧ statusOf (update_checkout s cid pid q).2 cid = some c.status
    ∧ statusOf (update_customer_details s cid email addr).2 cid
        = some c.status
    ∧ (statusOf (complete_checkout s cid tok ts ca).2 cid = some c.status
        ∨ (c.status = "ready_for_payment"
            ∧ statusOf (complete_checkout s cid tok ts ca).2 cid
                = some "completed"))
    ∧ (statusOf (start_payment s cid).2 cid = some c.status
        ∨ statusOf (start_payment s cid).2 cid = some "ready_for_payment")
    ∧ (∀ old, itemQuantity c pid = some old →
        quantityOf (add_to_checkout s cid pid q sid).2 cid pid
          = some (old + q)) :=
  ⟨statusOf_add s cid pid sid q c h,
   statusOf_remove s cid pid c h,
   statusOf_update s cid pid q c h,
   statusOf_customer s cid email addr c h,
   statusOf_complete s cid tok ts ca c h,
   statusOf_start s cid c h,
   fun old hq => quantityOf_add_present s cid pid sid q old c h hq⟩

/-- Claim C1 witness: the amended claim instantiated at the concrete
cart. -/
theorem status_transitions_per_operation_witness :
    lookupKey exCartState.checkouts "c2" = some exCart
    ∧ (statusOf (add_to_checkout exCartState "c2" "p1" 1 "s2").2 "c2"
          = some exCart.status
      ∧ statusOf (remove_from_checkout exCartState "c2" "p1").2 "c2"
          = some exCart.status
      ∧ statusOf (update_checkout exCartState "c2" "p1" 1).2 "c2"
          = some exCart.status
      ∧ statusOf (update_customer_details exCartState "c2"
            "u@example.com" none).2 "c2" = some exCart.status
      ∧ (statusOf (complete_checkout exCartState "c2" "tok" 0 0).2 "c2"
            = some exCart.status
          ∨ (exCart.status = "ready_for_payment"
              ∧ statusOf (complete_checkout exCartState "c2" "tok" 0 0).2
                  "c2" = some "completed"))
      ∧ (statusOf (start_payment exCartState "c2").2 "c2"
            = some exCart.status
          ∨ statusOf (start_payment exCartState "c2").2 "c2"
              = some "ready_for_payment")
      ∧ (∀ old, itemQuantity exCart "p1" = some old →
          quantityOf (add_to_checkout exCartState "c2" "p1" 1 "s2").2
              "c2" "p1" = some (old + 1))) :=
  ⟨rfl, status_transitions_per_operation exCartState "c2" "p1" "s2"
    "u@example.com" "tok" 1 0 0 none exCart rfl⟩
